import Mathlib

/-!
Verification of the RLGraph aggregation/fetch layer: a shallow embedding of
`src/aggregation/fetch/ballchasing_api.py` and
`src/aggregation/fetch/get_match_ids.py`, followed by theorems settling the
spec claims.

Modelling conventions:
* Python floats in the rate-limit table and the backoff computation are
  modelled as exact rationals (`ℚ`).  All comparisons performed by the code on
  these values agree with IEEE double behaviour at the integer inputs used
  (the only inexact constant is `0.9`; `3600 / 0.9` in doubles is
  `3999.9999999999995`, and `n < 3999.9999999999995` coincides with
  `n < 4000` for every integer `n`).
* `datetime` and `timedelta` values are modelled as integer microsecond
  counts (Python's own resolution).  Python's floor division `//` and
  modulo on timedeltas use positive divisors, where they coincide with
  `Int.ediv` / `Int.emod`.
* HTTP traffic is an explicit environment: `call` consumes a list of
  responses (one per attempt), `get_ids` takes a function from a window's
  start time to the response of the list endpoint, and the identity probe is
  assumed to succeed with a given tier.  Network activity is recorded as an
  event trace.
* Exceptions are modelled with `Except` / explicit result constructors.
-/

set_option autoImplicit false

namespace RLGraph

/-! ## ballchasing_api.py -/

/-- Patreon tiers appearing as keys of `RATE_LIMITS`. -/
inductive Tier where
  | regular
  | gold
  | diamond
  | champion
  | gc
  deriving DecidableEq, Repr

/-- A value of the `RATE_LIMITS` table: either a bare float (no hourly
limit) or a `{"per_second": _, "per_hour": _}` pair. -/
inductive RateLimit where
  | flat (q : ℚ)
  | dual (per_second per_hour : ℚ)
  deriving DecidableEq, Repr

/-- The two endpoint families, i.e. the keys of `RATE_LIMITS` in source
order (`"/replays/"` first, then `"/replays"`). -/
inductive Endpoint where
  | replaysSlash
  | replays
  deriving DecidableEq, Repr

/-- The `RATE_LIMITS` table of `ballchasing_api.py`, with the float
constants as exact rationals. -/
def RATE_LIMITS : Endpoint → Tier → RateLimit
  | .replaysSlash, .regular => .dual (0.625 : ℚ) (4.500 : ℚ)
  | .replaysSlash, .gold => .dual (0.625 : ℚ) (2.250 : ℚ)
  | .replaysSlash, .diamond => .dual (0.313 : ℚ) (0.900 : ℚ)
  | .replaysSlash, .champion => .flat (0.156 : ℚ)
  | .replaysSlash, .gc => .flat (0.078 : ℚ)
  | .replays, .regular => .dual (0.625 : ℚ) (9.000 : ℚ)
  | .replays, .gold => .dual (0.625 : ℚ) (4.500 : ℚ)
  | .replays, .diamond => .dual (0.313 : ℚ) (2.250 : ℚ)
  | .replays, .champion => .flat (0.156 : ℚ)
  | .replays, .gc => .flat (0.078 : ℚ)

/-- Python's `needle in hay` substring test. -/
def containsSubstr (needle hay : String) : Bool :=
  decide (needle.toList <:+: hay.toList)

/-- The endpoint-detection loop of `compute_sleep_time` (lines 145-149):
iterate over `RATE_LIMITS` keys in dictionary order and keep the first key
that is a substring of the url. -/
def endpointOf (url : String) : Option Endpoint :=
  if containsSubstr "/replays/" url then some .replaysSlash
  else if containsSubstr "/replays" url then some .replays
  else none

/-- Errors raised by the modelled code paths.  `urlError` is the
`URLError` class, `apiError` the `APIError` class (carrying the offending
status code, or 10-retries exhaustion), `typeError` a Python `TypeError`
raised by `get_ids` validation, `attributeError` the `AttributeError` from
attribute access on `None`, and `responseOverflow` the
`ResponseOverflowError` class. -/
inductive FetchErr where
  | typeError
  | attributeError
  | responseOverflow
  | urlError
  deriving DecidableEq, Repr

/-- Model of `API.compute_sleep_time` (lines 128-167).  `patron_type` is the tier
established by `ping`.  Returns the sleep time or raises `URLError` when the
url matches no supported endpoint family. -/
def compute_sleep_time (patron_type : Tier) (url : String) (num_requests : Nat) :
    Except FetchErr ℚ :=
  match endpointOf url with
  | none => .error .urlError
  | some endpoint =>
    match RATE_LIMITS endpoint patron_type with
    | .flat q => .ok q
    | .dual per_second per_hour =>
      if (num_requests : ℚ) < 3600 / per_hour then .ok per_second
      else .ok per_hour

/-- One HTTP response to an attempt made by `API.call`: status 200 with a
parsed JSON body, a retryable 429/500, or any other status code. -/
inductive Resp (β : Type) where
  | s200 (body : β)
  | s429
  | s500
  | other (code : Nat)
  deriving DecidableEq, Repr

/-- The value produced by one invocation of `API.call`.  `ret v` is a normal
return: `v = some body` when the very first attempt got a 200, and
`v = none` when the function fell through the retry branch (the Python code
discards the recursive call's result and returns `None`).  `fail10` is the
`APIError` raised at the 10th consecutive failure, `failOther` the
`APIError` raised on any other non-200 status.  `starved` is a model
artifact: the response list was exhausted before the call finished. -/
inductive CallRes (β : Type) where
  | ret (v : Option β)
  | fail10 (code : Nat)
  | failOther (code : Nat)
  | starved
  deriving DecidableEq, Repr

/-- The tail of the retry branch of `API.call` (lines 118-123): sleep
`sleep_time`, sleep the backoff `0.5 * 2 ^ m` (the code computes
`m = counter - 1`), perform the recursive call — and, because the Python
`elif` branch has no `return`, discard a normal recursive result and fall
through to return `None`, while a raised error propagates unchanged. -/
def retryStep {β : Type} (sleep_time : ℚ) (m : Nat)
    (x : CallRes β × Nat × List ℚ) : CallRes β × Nat × List ℚ :=
  match x with
  | (.ret _, n2, sleeps) => (.ret none, n2, sleep_time :: (0.5 : ℚ) * 2 ^ m :: sleeps)
  | (e, n2, sleeps) => (e, n2, sleep_time :: (0.5 : ℚ) * 2 ^ m :: sleeps)

/-- Model of `API.call` (lines 75-126), driven by a list of responses (one per
attempt) with the session's consecutive-failure counter threaded through.
Returns the call's result, the final counter value, and the list of sleep
durations performed (in order).  On a 200 the counter resets to 0 and the
code sleeps `sleep_time`; on a 429/500 the counter increments, and either
the 10-failure `APIError` fires (before any sleep) or the retry branch
(`retryStep`) runs with backoff exponent `counter - 1`. -/
def call {β : Type} (sleep_time : ℚ) :
    List (Resp β) → Nat → CallRes β × Nat × List ℚ
  | [], n => (.starved, n, [])
  | .s200 body :: _, _ => (.ret (some body), 0, [sleep_time])
  | .s429 :: rest, n =>
    if 10 ≤ n + 1 then (.fail10 429, n + 1, [])
    else retryStep sleep_time ((n + 1) - 1) (call sleep_time rest (n + 1))
  | .s500 :: rest, n =>
    if 10 ≤ n + 1 then (.fail10 500, n + 1, [])
    else retryStep sleep_time ((n + 1) - 1) (call sleep_time rest (n + 1))
  | .other code :: _, n => (.failOther code, n, [])

/-! ## get_match_ids.py -/

/-- Python's banker's rounding `round(x)` (round half to even), on exact
rationals.  The float quantity rounded by `get_ids` is never closer than
about `1.7e-8` to a half-integer unless it is exactly one, so the rational
model agrees with the float evaluation. -/
def pyRound (q : ℚ) : Int :=
  if q - ⌊q⌋ < 1 / 2 then ⌊q⌋
  else if 1 / 2 < q - ⌊q⌋ then ⌊q⌋ + 1
  else if ⌊q⌋ % 2 = 0 then ⌊q⌋ else ⌊q⌋ + 1

/-- Microseconds per day. -/
def usDay : Int := 86400000000

/-- Microseconds per minute. -/
def usMinute : Int := 60000000

/-- The `timedelta.days` field of a duration of `r` microseconds (Python normalises
with floor division; the divisor is positive, so `Int.ediv` coincides). -/
def tdDays (r : Int) : Int := r.ediv usDay

/-- The `timedelta.seconds` field (in `[0, 86400)`) of a duration of `r`
microseconds. -/
def tdSeconds (r : Int) : Int := (r.ediv 1000000).emod 86400

/-- The `timedelta.microseconds` field (in `[0, 1000000)`) of a duration of `r`
microseconds. -/
def tdMicroseconds (r : Int) : Int := r.emod 1000000

/-- Lines 71-74 of `get_match_ids.py`: round the resolution to the nearest
minute, keeping the `days` component:
`timedelta(days=res.days, minutes=round((res.seconds + res.microseconds / 1e6) / 60))`. -/
def roundResolution (r : Int) : Int :=
  tdDays r * usDay +
    pyRound (((tdSeconds r : ℚ) + (tdMicroseconds r : ℚ) / 1000000) / 60) * usMinute

/-- Lines 77-79: a resolution that rounded to exactly zero is clamped to
one minute. -/
def clampResolution (r : Int) : Int :=
  if r = 0 then usMinute else r

/-- The `while start < end` loop of lines 82-85, collecting the window
start times, with explicit fuel: `none` means the loop did not finish
within `fuel` iterations. -/
def windowStarts : Nat → Int → Int → Int → Option (List Int)
  | 0, s, e, _ => if s < e then none else some []
  | fuel + 1, s, e, r =>
    if s < e then (windowStarts fuel (s + r) e r).map (fun l => s :: l)
    else some []

/-- The window-generation loop terminates (some fuel suffices). -/
def genTerminates (s e r : Int) : Prop :=
  ∃ fuel l, windowStarts fuel s e r = some l

/-- The end bound used for the query of the window starting at `s`
(lines 105-108): `s + resolution`, clamped to the overall `end`. -/
def windowEnd (s e r : Int) : Int :=
  if s + r < e then s + r else e

/-- The (start, end) bounds of each sub-window query, as they appear in the
`created-after` / `created-before` parameters. -/
def windowsOf (starts : List Int) (e r : Int) : List (Int × Int) :=
  starts.map (fun s => (s, windowEnd s e r))

/-- A parsed body of the list endpoint: either the literal `{"list": []}`
(the only case `data != {"list": []}` rules out) or a body carrying a
`count` field and a `list` field, the latter abstracted to its items'
`"id"` strings. -/
inductive ApiResponse where
  | emptyList
  | full (count : Int) (ids : List String)
  deriving DecidableEq, Repr

/-- Lines 120-132: handling of one window's response.  The literal
`{"list": []}` skips every check and contributes no ids; otherwise a
`ResponseOverflowError` is raised when `count > 9999` or the list length
differs from `count`, else the ids are extracted in order. -/
def processWindow : ApiResponse → Except FetchErr (List String)
  | .emptyList => .ok []
  | .full count ids =>
    if 9999 < count ∨ (ids.length : Int) ≠ count then .error .responseOverflow
    else .ok ids

/-- Network events performed by `get_ids`, in order: the identity probe of
the `API` constructor, and one list-endpoint query per sub-window, recorded
with the window bounds carried by its `created-after`/`created-before`
parameters. -/
inductive Event where
  | ping
  | listCall (after before : Int)
  deriving DecidableEq, Repr

/-- Lines 99-145: the per-window loop.  `apiFn` maps a window's start time
to the response of the (always-succeeding) list call.  Returns the
accumulated ids (or the error that aborted the fetch) together with the
trace of list calls made. -/
def fetchLoop (apiFn : Int → ApiResponse) (e r : Int) :
    List Int → Except FetchErr (List String) × List Event
  | [] => (.ok [], [])
  | s :: rest =>
    match processWindow (apiFn s) with
    | .error err => (.error err, [.listCall s (windowEnd s e r)])
    | .ok ids =>
      match fetchLoop apiFn e r rest with
      | (.ok more, evs) => (.ok (ids ++ more), .listCall s (windowEnd s e r) :: evs)
      | (.error err, evs) => (.error err, .listCall s (windowEnd s e r) :: evs)

/-- Line 67: the dynamic check on `outfile` — it must be `None` or a string
whose last four characters are `".csv"` (Python's `outfile[-4:]`). -/
def outfileOk : Option String → Bool
  | none => true
  | some s => (s.toList.drop (s.length - 4)) == ".csv".toList

/-- Model of `get_ids` (lines 17-145).  The embedding is typed, so the `isinstance`
checks on `api_key`, `base_url`, `start`, `end` and a non-`None`
`time_resolution` hold by construction; the remaining dynamic checks are
modelled: the `outfile` suffix check raises `TypeError`, and a `None`
`time_resolution` passes line 63's check but then line 72's
`time_resolution.days` raises `AttributeError`.  `tier` is the patron type
the identity probe establishes (the probe is assumed to succeed), `apiFn`
the list-endpoint environment keyed by window start time, `fuel` bounds the
window-generation loop (`none` = the loop diverges).  The result pairs the
returned id list (or the raised error) with the trace of network events. -/
def get_ids (fuel : Nat) (tier : Tier) (apiFn : Int → ApiResponse)
    (api_key base_url : String) (start end_ : Int)
    (time_resolution : Option Int) (outfile : Option String) :
    Option (Except FetchErr (List String) × List Event) :=
  if outfileOk outfile then
    match time_resolution with
    | none => some (.error .attributeError, [])
    | some res0 =>
      let r := clampResolution (roundResolution res0)
      match windowStarts fuel start end_ r with
      | none => none
      | some starts =>
        match compute_sleep_time tier base_url starts.length with
        | .error err => some (.error err, [.ping])
        | .ok _ =>
          match fetchLoop apiFn end_ r starts with
          | (res, evs) => some (res, .ping :: evs)
  else some (.error .typeError, [])

/-! ## Helper lemmas -/

theorem windowStarts_succ (fuel : Nat) (s e r : Int) (h : s < e) :
    windowStarts (fuel + 1) s e r = (windowStarts fuel (s + r) e r).map (fun l => s :: l) := by
  simp [windowStarts, h]

theorem windowStarts_done (fuel : Nat) (s e r : Int) (h : ¬ s < e) :
    windowStarts fuel s e r = some [] := by
  cases fuel <;> simp [windowStarts, h]

theorem windowStarts_none_of_nonpos :
    ∀ (fuel : Nat) (s e r : Int), s < e → r ≤ 0 → windowStarts fuel s e r = none := by
  intro fuel
  induction fuel with
  | zero => intro s e r h _; simp [windowStarts, h]
  | succ f ih =>
    intro s e r h hr
    simp [windowStarts, h, ih (s + r) e r (by omega) hr]

theorem windowStarts_terminates (e r : Int) (hr : 0 < r) :
    ∀ (fuel : Nat) (s : Int), (e - s).toNat ≤ fuel →
      ∃ l, windowStarts fuel s e r = some l := by
  intro fuel
  induction fuel with
  | zero =>
    intro s h
    exact ⟨[], windowStarts_done 0 s e r (by omega)⟩
  | succ f ih =>
    intro s h
    by_cases hs : s < e
    · obtain ⟨l, hl⟩ := ih (s + r) (by omega)
      exact ⟨s :: l, by simp [windowStarts, hs, hl]⟩
    · exact ⟨[], windowStarts_done _ s e r hs⟩

theorem pyRound_nonneg (q : ℚ) (h : 0 ≤ q) : 0 ≤ pyRound q := by
  have hf : (0 : Int) ≤ ⌊q⌋ := Int.floor_nonneg.mpr h
  unfold pyRound
  split_ifs <;> omega

theorem roundResolution_nonneg (r : Int) (h : 0 ≤ r) : 0 ≤ roundResolution r := by
  have hsec : (0 : Int) ≤ tdSeconds r := Int.emod_nonneg _ (by norm_num)
  have hmic : (0 : Int) ≤ tdMicroseconds r := Int.emod_nonneg _ (by norm_num)
  have hq : (0 : ℚ) ≤ ((tdSeconds r : ℚ) + (tdMicroseconds r : ℚ) / 1000000) / 60 := by
    have h1 : (0 : ℚ) ≤ (tdSeconds r : ℚ) := by exact_mod_cast hsec
    have h2 : (0 : ℚ) ≤ (tdMicroseconds r : ℚ) := by exact_mod_cast hmic
    have h3 : (0 : ℚ) ≤ (tdMicroseconds r : ℚ) / 1000000 := by positivity
    positivity
  have hdays : (0 : Int) ≤ tdDays r := Int.ediv_nonneg h (by norm_num [usDay])
  have h1 : (0 : Int) ≤ tdDays r * usDay :=
    mul_nonneg hdays (by norm_num [usDay])
  have h2 : (0 : Int) ≤ pyRound (((tdSeconds r : ℚ) + (tdMicroseconds r : ℚ) / 1000000) / 60) * usMinute :=
    mul_nonneg (pyRound_nonneg _ hq) (by norm_num [usMinute])
  unfold roundResolution
  omega

theorem clampResolution_pos (x : Int) (h : 0 ≤ x) : 0 < clampResolution x := by
  unfold clampResolution
  split_ifs with h0
  · norm_num [usMinute]
  · omega

/-! ## Claim theorems -/

/-- C6: for every tier whose `RATE_LIMITS` entry for the matched endpoint
family is a dual-regime pair, `compute_sleep_time` with planned call count
`n` returns the per-second delay when `n < 3600 / per_hour` and the
per-hour delay otherwise; in particular exact equality `n = 3600 / per_hour`
selects the per-hour delay. -/
theorem compute_sleep_time_dual_regime (t : Tier) (url : String) (ep : Endpoint)
    (n : Nat) (ps ph : ℚ)
    (hep : endpointOf url = some ep) (hd : RATE_LIMITS ep t = .dual ps ph) :
    compute_sleep_time t url n = .ok (if (n : ℚ) < 3600 / ph then ps else ph) ∧
      ((n : ℚ) = 3600 / ph → compute_sleep_time t url n = .ok ph) := by
  simp only [compute_sleep_time, hep, hd]
  constructor
  · split_ifs <;> rfl
  · intro hEq
    rw [if_neg (by rw [hEq]; exact lt_irrefl _)]

/-- Witness for C6: the regular tier on the list endpoint plans exactly
`3600 / 9 = 400` calls and is given the per-hour delay. -/
theorem compute_sleep_time_dual_regime_witness :
    compute_sleep_time .regular "/api/replays?" 400 = .ok (9.000 : ℚ) :=
  (compute_sleep_time_dual_regime .regular "/api/replays?" .replays 400
    (0.625 : ℚ) (9.000 : ℚ) (by decide) rfl).2 (by norm_num)

/-- C8: for every url containing neither `"/replays"` nor `"/replays/"`,
`compute_sleep_time` fails with `URLError` regardless of tier and planned
call count. -/
theorem compute_sleep_time_unsupported (t : Tier) (url : String) (n : Nat)
    (h1 : containsSubstr "/replays/" url = false)
    (h2 : containsSubstr "/replays" url = false) :
    compute_sleep_time t url n = .error .urlError := by
  simp [compute_sleep_time, endpointOf, h1, h2]

/-- Witness for C8: the identity endpoint url is rejected. -/
theorem compute_sleep_time_unsupported_witness :
    compute_sleep_time .regular "https://ballchasing.com/api/" 5 = .error .urlError :=
  compute_sleep_time_unsupported .regular "https://ballchasing.com/api/" 5
    (by decide) (by decide)

theorem retryStep_snd {β : Type} (d : ℚ) (m : Nat) (x : CallRes β × Nat × List ℚ) :
    (retryStep d m x).2.1 = x.2.1 := by
  rcases x with ⟨res, n2, sl⟩
  cases res <;> rfl

theorem retryStep_sleeps {β : Type} (d : ℚ) (m : Nat) (x : CallRes β × Nat × List ℚ) :
    (retryStep d m x).2.2 = d :: (0.5 : ℚ) * 2 ^ m :: x.2.2 := by
  rcases x with ⟨res, n2, sl⟩
  cases res <;> rfl

theorem retryStep_fst_fail10 {β : Type} (d : ℚ) (m : Nat) (c : Nat)
    (x : CallRes β × Nat × List ℚ) (h : x.1 = .fail10 c) :
    (retryStep d m x).1 = .fail10 c := by
  rcases x with ⟨res, n2, sl⟩
  cases res <;> simp_all [retryStep]

theorem call_fails_ok {β : Type} (d : ℚ) (b : β) (rest : List (Resp β)) :
    ∀ (fails : List (Resp β)) (n : Nat),
      (∀ x ∈ fails, x = .s429 ∨ x = .s500) → n + fails.length < 10 →
      ∃ sleeps, call d (fails ++ .s200 b :: rest) n =
        (.ret (if fails.isEmpty then some b else none), 0, sleeps) := by
  intro fails
  induction fails with
  | nil => intro n _ _; exact ⟨[d], rfl⟩
  | cons x fs ih =>
    intro n hmem h
    rw [List.length_cons] at h
    obtain ⟨sl, hsl⟩ :=
      ih (n + 1) (fun y hy => hmem y (List.mem_cons_of_mem x hy)) (by omega)
    refine ⟨d :: (0.5 : ℚ) * 2 ^ ((n + 1) - 1) :: sl, ?_⟩
    rcases hmem x (List.mem_cons_self x fs) with hx | hx <;> subst hx <;>
    · simp only [List.cons_append, call]
      rw [if_neg (by omega), List.append_eq, hsl]
      simp [retryStep]

theorem call_fails_ceiling {β : Type} (d : ℚ) (l : List (Resp β)) :
    ∀ (fails : List (Resp β)) (n : Nat),
      (∀ x ∈ fails, x = .s429 ∨ x = .s500) → n < 10 → 10 ≤ n + fails.length →
      ((call d (fails ++ l) n).1 = .fail10 429 ∨
       (call d (fails ++ l) n).1 = .fail10 500) ∧
      (call d (fails ++ l) n).2.1 = 10 := by
  intro fails
  induction fails with
  | nil => intro n _ h1 h2; rw [List.length_nil] at h2; omega
  | cons x fs ih =>
    intro n hmem h1 h2
    rw [List.length_cons] at h2
    rcases hmem x (List.mem_cons_self x fs) with hx | hx <;> subst hx <;>
    · simp only [List.cons_append, call]
      by_cases h10 : 10 ≤ n + 1
      · have hn : n + 1 = 10 := by omega
        rw [if_pos h10, hn]
        first
        | exact ⟨Or.inl rfl, rfl⟩
        | exact ⟨Or.inr rfl, rfl⟩
      · rw [if_neg h10]
        obtain ⟨hres, hcnt⟩ :=
          ih (n + 1) (fun y hy => hmem y (List.mem_cons_of_mem _ hy))
            (by omega) (by omega)
        refine ⟨?_, (retryStep_snd d _ _).trans hcnt⟩
        rcases hres with hres | hres
        · exact Or.inl (retryStep_fst_fail10 d _ 429 _ hres)
        · exact Or.inr (retryStep_fst_fail10 d _ 500 _ hres)

/-- C5: within one session (failure counter starting at 0), `call` raises
the 10-retries `APIError` exactly when the consecutive-failure counter
reaches 10, for any run of consecutive retryable failures (each element a
429 or a 500, in any mixture): fewer than 10 of them are all retried and
the next 200 resets the counter to 0; at 10 the fatal error fires (with
the status code of the 10th failure) with the counter exactly 10. -/
theorem call_failure_ceiling {β : Type} (d : ℚ) (b : β)
    (fails rest : List (Resp β))
    (hmem : ∀ x ∈ fails, x = .s429 ∨ x = .s500) :
    (fails.length < 10 → ∃ v sleeps,
        call d (fails ++ .s200 b :: rest) 0 = (.ret v, 0, sleeps)) ∧
    (10 ≤ fails.length →
        ((call d (fails ++ .s200 b :: rest) 0).1 = .fail10 429 ∨
         (call d (fails ++ .s200 b :: rest) 0).1 = .fail10 500) ∧
        (call d (fails ++ .s200 b :: rest) 0).2.1 = 10) := by
  constructor
  · intro h
    obtain ⟨sl, hsl⟩ := call_fails_ok d b rest fails 0 hmem (by omega)
    exact ⟨_, sl, hsl⟩
  · intro h
    exact call_fails_ceiling d (.s200 b :: rest) fails 0 hmem (by omega) (by omega)

/-- Witness for C5: a mixed run 429, 500, 429 is absorbed and the next 200
resets the counter; a mixed run of eleven 429/500s hits the ceiling with
the counter at 10. -/
theorem call_failure_ceiling_witness :
    (∃ v sleeps, call (1 : ℚ)
        ([.s429, .s500, .s429] ++ [Resp.s200 (0 : Nat)]) 0 = (.ret v, 0, sleeps)) ∧
    (((call (1 : ℚ) ([.s429, .s500, .s429, .s500, .s429, .s500, .s429, .s500,
          .s429, .s500, .s429] ++ [Resp.s200 (0 : Nat)]) 0).1 = .fail10 429 ∨
      (call (1 : ℚ) ([.s429, .s500, .s429, .s500, .s429, .s500, .s429, .s500,
          .s429, .s500, .s429] ++ [Resp.s200 (0 : Nat)]) 0).1 = .fail10 500) ∧
     (call (1 : ℚ) ([.s429, .s500, .s429, .s500, .s429, .s500, .s429, .s500,
          .s429, .s500, .s429] ++ [Resp.s200 (0 : Nat)]) 0).2.1 = 10) :=
  ⟨(call_failure_ceiling 1 (0 : Nat) [.s429, .s500, .s429] [] (by decide)).1
      (by norm_num),
   (call_failure_ceiling 1 (0 : Nat) [.s429, .s500, .s429, .s500, .s429, .s500,
      .s429, .s500, .s429, .s500, .s429] [] (by decide)).2 (by norm_num)⟩

/-- C2 is a code bug: when the first attempt gets a 429 and the retry gets a
200, `call` returns Python `None` (`.ret none`) — the recursive retry's
result is discarded because the `elif` branch has no `return` — instead of
the parsed body promised by the function's own docstring.  The sleeps
(base delay 1, backoff 0.5, then the successful attempt's delay 1) do
happen, and the counter is reset by the 200. -/
theorem call_retry_discards_body :
    call (1 : ℚ) [Resp.s429, Resp.s200 (0 : Nat)] 0 =
      (.ret none, 0, [(1 : ℚ), (0.5 : ℚ), (1 : ℚ)]) := by
  norm_num [call, retryStep]

/-- C9: before the Nth retry (N = the just-incremented consecutive-failure
counter, here `n + 1`), the code sleeps the base rate-limit delay `d` and
then an extra backoff of `0.5 * 2 ^ (N - 1)` seconds, for a 429 as well as
a 500. -/
theorem call_backoff {β : Type} (d : ℚ) (rest : List (Resp β)) (n : Nat)
    (h : n + 1 < 10) :
    (∃ res n2 sleeps, call d (.s429 :: rest) n =
        (res, n2, d :: (0.5 : ℚ) * 2 ^ ((n + 1) - 1) :: sleeps)) ∧
    (∃ res n2 sleeps, call d (.s500 :: rest) n =
        (res, n2, d :: (0.5 : ℚ) * 2 ^ ((n + 1) - 1) :: sleeps)) := by
  constructor
  · have hstep : call d (.s429 :: rest) n =
        retryStep d ((n + 1) - 1) (call d rest (n + 1)) := by
      simp only [call]
      rw [if_neg (by omega)]
    refine ⟨(retryStep d ((n + 1) - 1) (call d rest (n + 1))).1,
      (retryStep d ((n + 1) - 1) (call d rest (n + 1))).2.1,
      (call d rest (n + 1)).2.2, ?_⟩
    rw [hstep, ← retryStep_sleeps d ((n + 1) - 1) (call d rest (n + 1))]
  · have hstep : call d (.s500 :: rest) n =
        retryStep d ((n + 1) - 1) (call d rest (n + 1)) := by
      simp only [call]
      rw [if_neg (by omega)]
    refine ⟨(retryStep d ((n + 1) - 1) (call d rest (n + 1))).1,
      (retryStep d ((n + 1) - 1) (call d rest (n + 1))).2.1,
      (call d rest (n + 1)).2.2, ?_⟩
    rw [hstep, ← retryStep_sleeps d ((n + 1) - 1) (call d rest (n + 1))]

/-- Witness for C9: first failure of the session (N = 1); the backoff slot
is `0.5 * 2 ^ 0 = 0.5` seconds, right after the base delay. -/
theorem call_backoff_witness :
    ∃ res n2 sleeps, call (1 : ℚ) [(Resp.s429 : Resp Nat)] 0 =
      (res, n2, (1 : ℚ) :: (0.5 : ℚ) * 2 ^ ((0 + 1) - 1) :: sleeps) :=
  (call_backoff 1 ([] : List (Resp Nat)) 0 (by omega)).1

/-- C1 fails on the code: `get_ids` has no start-before-end check.  With
`start` one day after `end` and otherwise valid arguments, no validation
error is raised; the identity probe (network activity) still runs, and the
fetch returns the empty id list. -/
theorem get_ids_inverted_range_cex :
    get_ids 0 .regular (fun _ => .emptyList) "key" "/api/replays?"
      usDay 0 (some usDay) none = some (.ok [], [.ping]) := by
  have ho : outfileOk (none : Option String) = true := rfl
  have hw : windowStarts 0 usDay 0 (clampResolution (roundResolution usDay)) = some [] :=
    windowStarts_done 0 _ _ _ (by norm_num [usDay])
  have h1 : containsSubstr "/replays/" "/api/replays?" = false := by decide
  have h2 : containsSubstr "/replays" "/api/replays?" = true := by decide
  have hurl : compute_sleep_time .regular "/api/replays?" 0 = .ok (0.625 : ℚ) := by
    norm_num [compute_sleep_time, endpointOf, h1, h2, RATE_LIMITS]
  simp only [get_ids, ho, hw, List.length_nil, hurl, fetchLoop, if_true]

/-- C1 amended: `get_ids` performs no inverted-range validation.  Whenever
`end ≤ start` (and the dynamic `outfile` check passes, and the base url
targets a supported endpoint), `get_ids` raises nothing: the window list is
empty, the identity probe still happens, and the empty id list is
returned. -/
theorem get_ids_inverted_range (fuel : Nat) (tier : Tier)
    (apiFn : Int → ApiResponse) (api_key base_url : String) (s e r : Int)
    (outfile : Option String) (d : ℚ)
    (ho : outfileOk outfile = true) (hrange : e ≤ s)
    (hurl : compute_sleep_time tier base_url 0 = .ok d) :
    get_ids fuel tier apiFn api_key base_url s e (some r) outfile =
      some (.ok [], [.ping]) := by
  have hw : windowStarts fuel s e (clampResolution (roundResolution r)) = some [] :=
    windowStarts_done fuel _ _ _ (by omega)
  simp only [get_ids, ho, hw, List.length_nil, hurl, fetchLoop, if_true]

/-- Witness for C1's amended theorem: a concrete inverted range. -/
theorem get_ids_inverted_range_witness :
    get_ids 3 .gold (fun _ => .emptyList) "key" "/api/replays?" 5 (-5)
      (some usMinute) (some "out.csv") = some (.ok [], [.ping]) := by
  have hurl : compute_sleep_time .gold "/api/replays?" 0 = .ok (0.625 : ℚ) := by
    have h1 : containsSubstr "/replays/" "/api/replays?" = false := by decide
    have h2 : containsSubstr "/replays" "/api/replays?" = true := by decide
    norm_num [compute_sleep_time, endpointOf, h1, h2, RATE_LIMITS]
  exact get_ids_inverted_range 3 .gold (fun _ => .emptyList) "key" "/api/replays?"
    5 (-5) usMinute (some "out.csv") (0.625 : ℚ) (by decide) (by omega) hurl

/-- C3 fails on the code: window generation does not terminate for every
caller-provided resolution.  With resolution `timedelta(days=-1)` — which
is a well-typed `timedelta` and survives the rounding and the zero-clamp
unchanged — the `while start < end` loop never reaches `end`, so no amount
of fuel makes it finish. -/
theorem window_generation_nonterminating_cex :
    ¬ genTerminates 0 usDay (clampResolution (roundResolution (-usDay))) := by
  have hres : clampResolution (roundResolution (-usDay)) = -usDay := by
    norm_num [clampResolution, roundResolution, tdDays, tdSeconds, tdMicroseconds,
      pyRound, usDay, usMinute]
  rw [hres]
  rintro ⟨fuel, l, hl⟩
  rw [windowStarts_none_of_nonpos fuel 0 usDay (-usDay)
    (by norm_num [usDay]) (by norm_num [usDay])] at hl
  exact Option.noConfusion hl

/-- C3 amended: for every `start < end` and every nonnegative
caller-provided resolution, the window-generation loop terminates, and so
`get_ids` terminates given the (always-terminating) modelled API calls:
some fuel makes it produce a result. -/
theorem get_ids_terminating (tier : Tier) (apiFn : Int → ApiResponse)
    (api_key base_url : String) (s e r : Int) (outfile : Option String)
    (h1 : s < e) (h2 : 0 ≤ r) (ho : outfileOk outfile = true) :
    ∃ fuel out,
      get_ids fuel tier apiFn api_key base_url s e (some r) outfile = some out := by
  have hpos : 0 < clampResolution (roundResolution r) :=
    clampResolution_pos _ (roundResolution_nonneg r h2)
  obtain ⟨starts, hws⟩ :=
    windowStarts_terminates e (clampResolution (roundResolution r)) hpos
      ((e - s).toNat) s le_rfl
  refine ⟨(e - s).toNat, ?_⟩
  simp only [get_ids, ho, hws, if_true]
  cases hc : compute_sleep_time tier base_url starts.length with
  | error err => exact ⟨(.error err, [.ping]), rfl⟩
  | ok q => exact ⟨((fetchLoop apiFn e _ starts).1, .ping :: (fetchLoop apiFn e _ starts).2), rfl⟩

/-- Witness for C3's amended theorem: a one-day range at the default
resolution terminates. -/
theorem get_ids_terminating_witness :
    ∃ fuel out, get_ids fuel .regular (fun _ => ApiResponse.emptyList) "key"
      "/api/replays?" 0 usDay (some usDay) none = some out :=
  get_ids_terminating .regular (fun _ => ApiResponse.emptyList) "key"
    "/api/replays?" 0 usDay usDay none (by norm_num [usDay]) (by norm_num [usDay]) rfl

/-- C4: a sub-window response other than the literal `{"list": []}` raises
`ResponseOverflowError` if and only if its count exceeds 9999 or the count
differs from the length of the returned list; the literal empty response
skips the checks entirely and contributes zero identifiers to the loop's
accumulator. -/
theorem window_overflow_iff (c : Int) (ids : List String)
    (apiFn : Int → ApiResponse) (e r s : Int) (rest : List Int) (err : FetchErr) :
    (processWindow (.full c ids) = .error .responseOverflow ↔
      9999 < c ∨ (ids.length : Int) ≠ c) ∧
    processWindow .emptyList = .ok [] ∧
    (apiFn s = .emptyList →
      fetchLoop apiFn e r (s :: rest) =
        ((fetchLoop apiFn e r rest).1,
          .listCall s (windowEnd s e r) :: (fetchLoop apiFn e r rest).2)) ∧
    (processWindow (apiFn s) = .error err →
      (fetchLoop apiFn e r (s :: rest)).1 = .error err) := by
  refine ⟨?_, rfl, fun h => ?_, fun h => ?_⟩
  · simp only [processWindow]
    split_ifs with hc
    · simp [hc]
    · simp [hc]
  · simp only [fetchLoop, h, processWindow]
    rcases hrest : fetchLoop apiFn e r rest with ⟨res, evs⟩
    cases res <;> simp
  · simp [fetchLoop, h]

/-- Witness for C4: an all-empty environment, where the first window
contributes nothing and the loop continues. -/
theorem window_overflow_iff_witness :
    fetchLoop (fun _ => ApiResponse.emptyList) 1 1 (0 :: []) =
      ((fetchLoop (fun _ => ApiResponse.emptyList) 1 1 []).1,
        .listCall 0 (windowEnd 0 1 1) :: (fetchLoop (fun _ => ApiResponse.emptyList) 1 1 []).2) :=
  (window_overflow_iff 0 [] (fun _ => ApiResponse.emptyList) 1 1 0 []
    .responseOverflow).2.2.1 rfl

/-- C7: over the range `[T, T + 3 days)` at resolution one day (which the
rounding pipeline leaves unchanged), window generation yields exactly the
three start points `T`, `T + 1d`, `T + 2d`, and the queried windows are
contiguous and non-overlapping with the last window's end clamped to
exactly `T + 3 days`. -/
theorem window_generation_three_days (T : Int) :
    clampResolution (roundResolution usDay) = usDay ∧
    windowStarts 3 T (T + 3 * usDay) usDay = some [T, T + usDay, T + 2 * usDay] ∧
    windowsOf [T, T + usDay, T + 2 * usDay] (T + 3 * usDay) usDay =
      [(T, T + usDay), (T + usDay, T + 2 * usDay), (T + 2 * usDay, T + 3 * usDay)] := by
  have hd : (0 : Int) < usDay := by norm_num [usDay]
  refine ⟨by norm_num [clampResolution, roundResolution, tdDays, tdSeconds,
    tdMicroseconds, pyRound, usDay, usMinute], ?_, ?_⟩
  · have h1 : T < T + 3 * usDay := by linarith
    have h2 : T + usDay < T + 3 * usDay := by linarith
    have h3 : T + usDay + usDay < T + 3 * usDay := by linarith
    have h4 : ¬ T + usDay + usDay + usDay < T + 3 * usDay := not_lt.2 (by linarith)
    rw [show (3 : Nat) = 2 + 1 from rfl, windowStarts_succ _ _ _ _ h1,
      show (2 : Nat) = 1 + 1 from rfl, windowStarts_succ _ _ _ _ h2,
      show (1 : Nat) = 0 + 1 from rfl, windowStarts_succ _ _ _ _ h3,
      windowStarts_done _ _ _ _ h4]
    have h5 : T + usDay + usDay = T + 2 * usDay := by ring
    simp [h5]
  · have h5 : T + usDay + usDay = T + 2 * usDay := by ring
    have h6 : T + 2 * usDay + usDay = T + 3 * usDay := by ring
    simp only [windowsOf, List.map, windowEnd]
    rw [if_pos (by linarith), if_pos (by rw [h5]; linarith),
      if_neg (not_lt.2 (by rw [h6]))]
    rw [h5]

/-- C10: passing `time_resolution` explicitly as `None` passes `get_ids`'s
type validation (line 63 permits `None`), after which the rounding step's
`time_resolution.days` fails with an `AttributeError` — before any network
activity and without falling back to the one-day default (which in Python
is substituted only when the argument is omitted). -/
theorem get_ids_none_resolution (fuel : Nat) (tier : Tier)
    (apiFn : Int → ApiResponse) (api_key base_url : String) (s e : Int)
    (outfile : Option String) (ho : outfileOk outfile = true) :
    get_ids fuel tier apiFn api_key base_url s e none outfile =
      some (.error .attributeError, []) := by
  simp only [get_ids, ho, if_true]

/-- Witness for C10: concrete arguments with a valid sink path. -/
theorem get_ids_none_resolution_witness :
    get_ids 5 .diamond (fun _ => ApiResponse.emptyList) "key" "/api/replays?"
      0 usDay none (some "ids.csv") = some (.error .attributeError, []) :=
  get_ids_none_resolution 5 .diamond (fun _ => ApiResponse.emptyList) "key"
    "/api/replays?" 0 usDay (some "ids.csv") (by decide)

end RLGraph
